import Mathlib

/-!
Verification of the landslide `Generator` class (src/landslide/generator.py)
against its natural-language specification.

The definitions below are a shallow embedding of the Python source:
  * Python `None`-or-value fields become `Option`,
  * Python truthiness of strings is the test against the empty string,
  * raised exceptions become `Except` / `Option` results,
  * the message/severity pairs handed to `self.log` are accumulated in lists.
Filesystem reads, Jinja templating, ConfigParser internals and the external
parser/macro modules are I/O collaborators outside the repository; they are
represented by explicit parameters (file contents, parser availability,
macro transform functions) so that every control-flow decision made by
`generator.py` itself is reproduced faithfully.
-/

/-- The whitespace set of Python `str.strip` / regex `\s` (ASCII part):
space, tab, newline, carriage return, vertical tab, form feed. -/
def pyIsSpace (c : Char) : Bool :=
  c = ' ' || c = '\t' || c = '\n' || c = '\r' || c = '\x0b' || c = '\x0c'

/-- Python `str.strip()` on a character list. -/
def pyStripList (cs : List Char) : List Char :=
  ((cs.dropWhile pyIsSpace).reverse.dropWhile pyIsSpace).reverse

/-- Python `str.strip()`. -/
def pyStrip (s : String) : String :=
  String.mk (pyStripList s.data)

/-- Rendering of an optional string by Python `"%s"` formatting:
`None` prints as the literal `None`. -/
def pyShowOpt : Option String → String
  | none => "None"
  | some s => s

/-- One `(message, severity)` pair handed to `Generator.log`. -/
structure LogEntry where
  message : String
  severity : String
  deriving DecidableEq, Repr

/-- One registered macro, embedding an element of `Generator.macros`.
`run` stands for `macro_class(logger=..., embed=...).process(content, source)`;
a raised exception (from construction or from `process`) is an
`Except.error` carrying the text of the exception.  `name` stands for the
`"%s" % macro` rendering used in the failure log line. -/
structure MacroUnit where
  name : String
  run : String → Option String → Except String (String × List String)

/-- Result of `Generator.process_macros`: the threaded content, the
accumulated class list, and the log lines emitted via `self.log`. -/
structure MacroRun where
  content : String
  classes : List String
  log : List LogEntry
  deriving DecidableEq, Repr

/-- Shallow embedding of `Generator.process_macros` (generator.py 379-392).
Each macro is tried in registration order inside `try/except`: on success the
content is rebound and non-empty class lists are appended (`if add_classes:`
is a no-op for empty lists, so the append is unconditional here); on any
exception the content keeps its pre-macro value and
`self.log("%s processing failed in %s: %s" % (macro, source, e))` runs with
the *default* severity `'notice'`. -/
def process_macros : List MacroUnit → String → Option String → MacroRun
  | [], content, _ => { content := content, classes := [], log := [] }
  | m :: rest, content, source =>
    match m.run content source with
    | Except.ok (c2, addClasses) =>
      let r := process_macros rest c2 source
      { content := r.content, classes := addClasses ++ r.classes, log := r.log }
    | Except.error e =>
      let r := process_macros rest content source
      { content := r.content, classes := r.classes,
        log := { message := m.name ++ " processing failed in " ++ pyShowOpt source ++ ": " ++ e,
                 severity := "notice" } :: r.log }

/-- The log line produced when macro `m` fails with exception text `e`
while processing a slide of `source`. -/
def macroFailEntry (m : MacroUnit) (source : Option String) (e : String) : LogEntry :=
  { message := m.name ++ " processing failed in " ++ pyShowOpt source ++ ": " ++ e,
    severity := "notice" }

/-- A macro that always raises, used as concrete input for the macro
fault-isolation claim. -/
def alwaysFailingMacro : MacroUnit :=
  { name := "BadMacro", run := fun _ _ => Except.error "boom" }

/-- C2, counterexample: running `process_macros` with a single always-raising
macro logs exactly one line, and its severity is the default `'notice'`, not
`'warning'` as the claim states; so no warning-severity line is logged at
this concrete input. -/
theorem c2_no_warning_logged :
    ((process_macros [alwaysFailingMacro] "x" none).log.map LogEntry.severity) = ["notice"] ∧
    ("notice" : String) ≠ "warning" := by
  constructor
  · rfl
  · decide

/-- C2 (amended): if a macro `bad` raises on every input, then for every
content string and surrounding macro lists, `process_macros` of
`pre ++ bad :: post` returns the content the `post` macros produce from the
content as it stood after `pre` (i.e. before the failing macro), the classes
of `pre` and `post` both appear in order, and one log line at the default
`'notice'` severity identifying the macro, source and error is inserted
between the log lines of `pre` and `post`; `process_macros` itself is a
total function (it never raises or drops the slide). -/
theorem c2_macro_fault_isolation (pre post : List MacroUnit) (bad : MacroUnit) (e : String)
    (hbad : ∀ c s, bad.run c s = Except.error e) (content : String) (source : Option String) :
    process_macros (pre ++ bad :: post) content source =
      { content := (process_macros post (process_macros pre content source).content source).content,
        classes := (process_macros pre content source).classes ++
          (process_macros post (process_macros pre content source).content source).classes,
        log := (process_macros pre content source).log ++
          (macroFailEntry bad source e ::
            (process_macros post (process_macros pre content source).content source).log) } := by
  induction pre generalizing content with
  | nil =>
    simp [process_macros, hbad content source, macroFailEntry]
  | cons m rest ih =>
    cases hrun : m.run content source with
    | ok v =>
      simp [process_macros, hrun, ih v.1]
    | error e2 =>
      simp [process_macros, hrun, ih content]

/-- C2 witness: the amended theorem applied to the concrete always-failing
macro with no surrounding macros. -/
theorem c2_macro_fault_isolation_witness :
    process_macros [alwaysFailingMacro] "x" none =
      { content := "x", classes := [],
        log := [macroFailEntry alwaysFailingMacro none "boom"] } := by
  exact c2_macro_fault_isolation [] [] alwaysFailingMacro "boom" (fun _ _ => rfl) "x" none

/-!
## Slide extractor (`Generator.get_slide_vars`, generator.py 290-319)

The heading is located with
`re.search(r'(<h(\d+?).*?>(.+?)</h\d>)\s?(.+)?', slide_src, re.DOTALL | re.UNICODE)`.
`re.search` scans for the leftmost position where the pattern matches; at
that position all lazy quantifiers take their shortest possible spans.
Concretely (and the definitions below implement exactly this):
  * the match starts with the literal `<h` followed by one digit — the lazy
    `\d+?` never consumes a second digit, because `.*?>` can absorb any
    further characters, so a failure after one digit implies failure after
    more;
  * `.*?>` runs to the first `>` after the digit; if the remainder of the
    pattern cannot be completed there, backtracking to a later `>` cannot
    help, because the set of reachable closing tags only shrinks;
  * `(.+?)</h\d>` takes at least one title character and stops at the
    earliest occurrence of `</h`, digit, `>`;
  * `\s?` greedily takes one following whitespace character if present, and
    `(.+)?` takes the whole remainder (group 4 is `None` when empty).
`\d` and `\s` are modeled by their ASCII meanings.
-/

/-- The four groups of a successful heading search: group 1 (full heading
markup), the heading depth from group 2, group 3 (title) and group 4
(trailing text, `None` when absent). -/
structure HeadGroups where
  header : String
  level : Nat
  title : String
  g4 : Option String
  deriving DecidableEq, Repr

/-- `.*?>` after the digit: split at the first `>`, returning the
characters before it and the remainder after it. -/
def scanGt : List Char → Option (List Char × List Char)
  | [] => none
  | c :: r =>
    if c = '>' then some ([], r)
    else
      match scanGt r with
      | none => none
      | some (a, b) => some (c :: a, b)

/-- Does the list start with a closing tag `</h`, digit, `>`?  Returns the
digit and the remainder when it does. -/
def closeHere : List Char → Option (Char × List Char)
  | '<' :: '/' :: 'h' :: d :: '>' :: r => if d.isDigit then some (d, r) else none
  | _ => none

/-- `(.+?)</h\d>` scanning: `acc` holds the (reversed) title characters
consumed so far; stop at the earliest closing tag. -/
def titleCloseAux : List Char → List Char → Option (List Char × Char × List Char)
  | _, [] => none
  | acc, c :: r =>
    match closeHere (c :: r) with
    | some (d, rest) => some (acc.reverse, d, rest)
    | none => titleCloseAux (c :: acc) r

/-- `(.+?)</h\d>`: at least one title character, then the earliest closing
tag; returns (title characters, closing digit, remainder). -/
def titleClose : List Char → Option (List Char × Char × List Char)
  | [] => none
  | c :: r => titleCloseAux [c] r

/-- `\s?(.+)?` applied to the text after the closing tag: group 4. -/
def g4Of : List Char → Option String
  | [] => none
  | c :: r =>
    if pyIsSpace c then (if r.isEmpty then none else some (String.mk r))
    else some (String.mk (c :: r))

/-- Attempt the heading pattern at the current position (see the section
comment for why no further backtracking is needed). -/
def matchHeadAt (cs : List Char) : Option HeadGroups :=
  match cs with
  | c1 :: c2 :: d :: rest =>
    if c1 = '<' then
      if c2 = 'h' then
        if d.isDigit then
          match scanGt rest with
          | none => none
          | some (mid, afterGt) =>
            match titleClose afterGt with
            | none => none
            | some (titleCs, d2, rem) =>
              some { header := String.mk (c1 :: c2 :: d :: mid ++ '>' :: titleCs ++
                       '<' :: '/' :: 'h' :: d2 :: ['>']),
                     level := d.toNat - Char.toNat '0',
                     title := String.mk titleCs,
                     g4 := g4Of rem }
        else none
      else none
    else none
  | _ => none

/-- `re.search`: try the pattern at every position, leftmost first. -/
def searchHeading : List Char → Option HeadGroups
  | [] => none
  | c :: r =>
    match matchHeadAt (c :: r) with
    | some g => some g
    | none => searchHeading r

/-- The slide dict built by `get_slide_vars` (generator.py 316-319).
`source` holds the originating file path (`rel_path`; the `abs_path`
duplicate produced by `os.path.abspath` is filesystem glue and carries the
same information).  `number` is absent until the numbering pass of
`get_template_vars` sets it. -/
structure SlideRecord where
  header : Option String
  title : Option String
  level : Option Nat
  content : Option String
  classes : List String
  source : Option String
  number : Option Nat
  deriving DecidableEq, Repr

/-- Shallow embedding of `Generator.get_slide_vars` (generator.py 290-319).
Returns the slide-record-or-`None` together with the log lines emitted by
`process_macros`.  On a failed search, `content` is the whole fragment
stripped; on a successful search the groups are used and any text before
the match position is dropped.  Macros run only when the (possibly
stripped) content is a non-empty string, and the record is returned only
when `header or content` is truthy afterwards. -/
def get_slide_vars (macros : List MacroUnit) (slide_src : String) (source : Option String) :
    Option SlideRecord × List LogEntry :=
  match searchHeading slide_src.data with
  | none =>
    let content0 := pyStrip slide_src
    let r := if content0 ≠ "" then process_macros macros content0 source
             else { content := content0, classes := [], log := [] }
    (if r.content ≠ "" then
       some { header := none, title := none, level := none, content := some r.content,
              classes := r.classes, source := source, number := none }
     else none, r.log)
  | some g =>
    let content0 : Option String :=
      match g.g4 with
      | some t => if t ≠ "" then some (pyStrip t) else some t
      | none => none
    match content0 with
    | some c =>
      if c ≠ "" then
        let r := process_macros macros c source
        (some { header := some g.header, title := some g.title, level := some g.level,
                content := some r.content, classes := r.classes, source := source,
                number := none }, r.log)
      else
        (some { header := some g.header, title := some g.title, level := some g.level,
                content := some c, classes := [], source := source, number := none }, [])
    | none =>
      (some { header := some g.header, title := some g.title, level := some g.level,
              content := none, classes := [], source := source, number := none }, [])

/-- A position whose first character is not `<` cannot start a heading match. -/
theorem matchHeadAt_eq_none (c : Char) (l : List Char) (hc : c ≠ '<') :
    matchHeadAt (c :: l) = none := by
  match l with
  | [] => rfl
  | [a] => rfl
  | a :: b :: t => simp [matchHeadAt, hc]

/-- Prepending characters other than `<` does not change the result of the
heading search. -/
theorem searchHeading_append (p s : List Char) (hp : ∀ c ∈ p, c ≠ '<') :
    searchHeading (p ++ s) = searchHeading s := by
  induction p with
  | nil => rfl
  | cons c r ih =>
    have hc : c ≠ '<' := hp c (by simp)
    have hr : ∀ x ∈ r, x ≠ '<' := fun x hx => hp x (by simp [hx])
    simp [searchHeading, matchHeadAt_eq_none c (r ++ s) hc, ih hr]

/-- C4, counterexample: the fragment `"pre <h1>Title</h1> body"` does not
begin with a heading tag, yet `get_slide_vars` takes the *match* branch
(header present, and the text `"pre "` before the heading is discarded from
`content`), contradicting the claimed no-match behavior
(`content` = whole fragment stripped, header absent). -/
theorem c4_search_not_anchored :
    get_slide_vars [] "pre <h1>Title</h1> body" none =
      (some { header := some "<h1>Title</h1>", title := some "Title", level := some 1,
              content := some "body", classes := [], source := none, number := none }, []) ∧
    pyStrip "pre <h1>Title</h1> body" = "pre <h1>Title</h1> body" ∧
    ("body" : String) ≠ "pre <h1>Title</h1> body" := by
  exact ⟨by decide, by decide, by decide⟩

/-- C4 (amended): the slide extractor matches the heading at the leftmost
position *anywhere* in the fragment (`re.search`), not only at its start:
prepending any text containing no `<` to a fragment that has a heading
match leaves the extracted record unchanged — the prepended text is
discarded, and `content` is exactly the text trailing the heading.  The
no-match branch is taken only when no heading occurs anywhere. -/
theorem c4_heading_matched_anywhere (p s : String) (hp : ∀ c ∈ p.data, c ≠ '<')
    (hs : (searchHeading s.data).isSome = true) (macros : List MacroUnit)
    (src : Option String) :
    searchHeading (p ++ s).data = searchHeading s.data ∧
    get_slide_vars macros (p ++ s) src = get_slide_vars macros s src := by
  have hsearch : searchHeading (p ++ s).data = searchHeading s.data := by
    have : (p ++ s).data = p.data ++ s.data := String.data_append p s
    rw [this]
    exact searchHeading_append p.data s.data hp
  refine ⟨hsearch, ?_⟩
  obtain ⟨g, hg⟩ := Option.isSome_iff_exists.mp hs
  unfold get_slide_vars
  rw [hsearch, hg]

/-- C4 witness: prepending `"xy "` to a fragment with a heading changes
nothing. -/
theorem c4_heading_matched_anywhere_witness :
    searchHeading (("xy " ++ "<h1>T</h1>rest" : String)).data =
      searchHeading ("<h1>T</h1>rest" : String).data ∧
    get_slide_vars [] ("xy " ++ "<h1>T</h1>rest") none =
      get_slide_vars [] "<h1>T</h1>rest" none :=
  c4_heading_matched_anywhere "xy " "<h1>T</h1>rest" (by decide) (by decide) [] none

/-!
## Boundary split (`re.split(r'<hr.+>', ...)`, generator.py 227)

The separator pattern is `<hr` followed by `.+` (greedy, no DOTALL, so it
cannot cross a newline) and `>`.  At a given position the greedy `.+`
backtracks from the end of the line to the *last* `>` of the line, and at
least one character must sit between `<hr` and that `>` (so the plain
`<hr>` does not match).  `re.split` scans for non-overlapping leftmost
matches and returns the pieces between them.
-/

/-- Try the separator pattern `<hr.+>` at the current position; on success
return the remainder after the consumed separator. -/
def hrMatchAt (cs : List Char) : Option (List Char) :=
  match cs with
  | c1 :: c2 :: c3 :: rest =>
    if c1 = '<' then
      if c2 = 'h' then
        if c3 = 'r' then
          let line := rest.takeWhile (fun c => c ≠ '\n')
          match line.reverse.findIdx? (fun c => c = '>') with
          | none => none
          | some j =>
            if 1 ≤ line.length - 1 - j then some (rest.drop (line.length - 1 - j + 1))
            else none
        else none
      else none
    else none
  | _ => none

/-- A successful separator match consumes at least the three characters
`<hr`, so the remainder is strictly shorter. -/
theorem hrMatchAt_length (cs rest2 : List Char) (h : hrMatchAt cs = some rest2) :
    rest2.length < cs.length := by
  match cs with
  | [] => exact absurd h (by simp [hrMatchAt])
  | [a] => exact absurd h (by simp [hrMatchAt])
  | [a, b] => exact absurd h (by simp [hrMatchAt])
  | a :: b :: c :: rest =>
    simp only [hrMatchAt] at h
    split at h
    · split at h
      · split at h
        · split at h
          · exact absurd h (by simp)
          · split at h
            · cases h
              simp only [List.length_drop, List.length_cons]
              omega
            · exact absurd h (by simp)
        · exact absurd h (by simp)
      · exact absurd h (by simp)
    · exact absurd h (by simp)

/-- `re.split` scanning: `acc` holds the (reversed) characters of the piece
being built; each leftmost separator match ends the current piece. -/
def hrSplitAux (acc : List Char) (cs : List Char) : List (List Char) :=
  match cs with
  | [] => [acc.reverse]
  | c :: r =>
    match hm : hrMatchAt (c :: r) with
    | some rest => acc.reverse :: hrSplitAux [] rest
    | none => hrSplitAux (c :: acc) r
termination_by cs.length
decreasing_by
  · exact hrMatchAt_length _ _ hm
  · simp

/-- `re.split(r'<hr.+>', s)`. -/
def hrSplit (s : String) : List String :=
  (hrSplitAux [] s.data).map String.mk

/-- Does any position of the text match the separator pattern? -/
def containsHr : List Char → Bool
  | [] => false
  | c :: r => (hrMatchAt (c :: r)).isSome || containsHr r

/-- On text without any separator match, the split scanner returns the
single accumulated piece. -/
theorem hrSplitAux_of_no_match (cs : List Char) (hnb : containsHr cs = false)
    (acc : List Char) : hrSplitAux acc cs = [acc.reverse ++ cs] := by
  induction cs generalizing acc with
  | nil => simp [hrSplitAux]
  | cons c r ih =>
    have h1 : hrMatchAt (c :: r) = none := by
      have := congrArg (fun b => b) hnb
      simp only [containsHr, Bool.or_eq_false_iff] at hnb
      exact Option.not_isSome_iff_eq_none.mp (by simp [hnb.1])
    have h2 : containsHr r = false := by
      simp only [containsHr, Bool.or_eq_false_iff] at hnb
      exact hnb.2
    rw [hrSplitAux]
    split
    · rename_i rest hm
      rw [h1] at hm
      cases hm
    · rw [ih h2 (c :: acc)]
      simp

/-- A document with no separator match splits into exactly one fragment:
itself. -/
theorem hrSplit_of_no_match (s : String) (hnb : containsHr s.data = false) :
    hrSplit s = [s] := by
  unfold hrSplit
  rw [hrSplitAux_of_no_match s.data hnb []]
  rfl

/-!
## Content walker (`Generator.fetch_contents`, generator.py 196-234)

The filesystem is modeled as an explicit tree.  A file carries the outcome
of the three external interactions the walker performs on it: whether
`Parser(ext, ...)` resolves (`hasParser`; otherwise `NotImplementedError`
is caught and the accumulated — empty — slide list is returned early),
whether the `codecs` read decodes (`decodes`; otherwise a warning is
logged and the parse is skipped), and the parsed markup `parsed` returned
by `parser.parse(file_contents)`.  Directory entries are listed by the
filesystem in the order of the `children` list and sorted by
`entries.sort()` before recursing; `os.path.join` path prefixes are
dropped, the entry name stands for the path. -/
structure SrcFile where
  hasParser : Bool
  format : String
  decodes : Bool
  parsed : String
  deriving DecidableEq, Repr

/-- A source node: a file or a directory. -/
inductive FsNode where
  | file (name : String) (f : SrcFile)
  | dir (name : String) (children : List FsNode)
  deriving Repr

/-- The filename used for sorting and log lines. -/
def nodeName : FsNode → String
  | FsNode.file n _ => n
  | FsNode.dir n _ => n

/-- The comparison used by `entries.sort()`: lexicographic string order on
entry names. -/
def nodeLe (a b : FsNode) : Prop := nodeName a ≤ nodeName b

instance : DecidableRel nodeLe := fun a b =>
  inferInstanceAs (Decidable (nodeName a ≤ nodeName b))

instance : IsTotal FsNode nodeLe := ⟨fun a b => le_total (nodeName a) (nodeName b)⟩

instance : IsTrans FsNode nodeLe := ⟨fun _ _ _ h1 h2 => le_trans h1 h2⟩

/-- The `Exiting ...: no contents found` footer log line. -/
def exitingEntry (name : String) : LogEntry :=
  { message := "Exiting  " ++ name ++ ": no contents found", severity := "notice" }

/-- Shallow embedding of `Generator.fetch_contents` for a single file or
directory node, returning the slide-record-or-`None` list and the log
lines in emission order.  Mirrors generator.py 196-234: directories log
`Entering`, sort their entries and concatenate the recursion over them in
sorted order; files with no parser return the empty list early (skipping
the footer); decode failures log a warning; otherwise the parsed document
is split on the separator pattern and each fragment runs through
`get_slide_vars`.  The `if not slides:` footer logs `Exiting` when the
accumulated list is empty. -/
def fetch_contents (macros : List MacroUnit) :
    FsNode → List (Option SlideRecord) × List LogEntry
  | FsNode.file name f =>
    if !f.hasParser then ([], [])
    else
      let adding : LogEntry :=
        { message := "Adding   " ++ name ++ " (" ++ f.format ++ ")", severity := "notice" }
      if !f.decodes then
        ([], [adding,
              { message := "Unable to decode source " ++ name ++ ": skipping",
                severity := "warning" },
              exitingEntry name])
      else
        let results := (hrSplit f.parsed).map (fun frag => get_slide_vars macros frag (some name))
        let slides := results.map Prod.fst
        (slides, (adding :: (results.map Prod.snd).flatten) ++
          (if slides.isEmpty then [exitingEntry name] else []))
  | FsNode.dir name children =>
    let rs := (children.insertionSort nodeLe).attach.map
      (fun c => fetch_contents macros c.1)
    let slides := (rs.map Prod.fst).flatten
    (slides, (({ message := "Entering " ++ name, severity := "notice" } : LogEntry) ::
        (rs.map Prod.snd).flatten) ++
      (if slides.isEmpty then [exitingEntry name] else []))
termination_by n => sizeOf n
decreasing_by
  rename_i name children
  have hmem : c.1 ∈ children :=
    ((List.perm_insertionSort nodeLe children).mem_iff).mp c.2
  have := List.sizeOf_lt_of_mem hmem
  simp only [FsNode.dir.sizeOf_spec]
  omega

/-- The `type(source) is list` branch of `fetch_contents` (generator.py
202-204 plus the shared footer): walk each listed source and concatenate.
The footer message renders the Python list itself; that rendering is
abbreviated to `list`. -/
def fetch_contents_list (macros : List MacroUnit) (sources : List FsNode) :
    List (Option SlideRecord) × List LogEntry :=
  let rs := sources.map (fetch_contents macros)
  let slides := (rs.map Prod.fst).flatten
  (slides, (rs.map Prod.snd).flatten ++
    (if slides.isEmpty then [exitingEntry "list"] else []))

/-- C7: a file whose extension resolves no parser, or whose contents fail
to decode, contributes exactly zero slide records; `fetch_contents` is a
total function on such files (the `NotImplementedError` and
`UnicodeDecodeError` are caught, nothing propagates), the decode failure
additionally logs a `'warning'` line, and in a list of sources such a file
leaves the records of the surrounding sources untouched. -/
theorem c7_unreadable_file_is_skipped (name : String) (f : SrcFile) (macros : List MacroUnit)
    (h : f.hasParser = false ∨ f.decodes = false) :
    (fetch_contents macros (FsNode.file name f)).1 = [] ∧
    (f.hasParser = true → f.decodes = false →
      ({ message := "Unable to decode source " ++ name ++ ": skipping",
         severity := "warning" } : LogEntry) ∈ (fetch_contents macros (FsNode.file name f)).2) ∧
    (∀ pre post : List FsNode,
      (fetch_contents_list macros (pre ++ FsNode.file name f :: post)).1 =
        (fetch_contents_list macros pre).1 ++ (fetch_contents_list macros post).1) := by
  have hrec : (fetch_contents macros (FsNode.file name f)).1 = [] := by
    rcases h with h | h
    · simp [fetch_contents, h]
    · by_cases hp : f.hasParser
      · simp [fetch_contents, hp, h]
      · simp [fetch_contents, hp]
  refine ⟨hrec, ?_, ?_⟩
  · intro hp hd
    simp [fetch_contents, hp, hd]
  · intro pre post
    simp [fetch_contents_list, List.map_append, List.flatten_append, hrec]

/-- Concrete unparseable file: a `.bin` source with no registered parser. -/
def binFile : SrcFile := { hasParser := false, format := "", decodes := true, parsed := "" }

/-- Concrete file whose bytes do not decode under the configured encoding. -/
def badEncodingFile : SrcFile :=
  { hasParser := true, format := "markdown", decodes := false, parsed := "" }

/-- Concrete readable markdown file. -/
def goodFile : SrcFile :=
  { hasParser := true, format := "markdown", decodes := true, parsed := "hello" }

/-- C7 witness: the theorem applied to a concrete `.bin` file sitting
between a good source and nothing, and to a concrete undecodable file. -/
theorem c7_unreadable_file_is_skipped_witness :
    (fetch_contents [] (FsNode.file "a.bin" binFile)).1 = [] ∧
    (fetch_contents_list []
        ([FsNode.file "g.md" goodFile] ++ FsNode.file "a.bin" binFile :: [])).1 =
      (fetch_contents_list [] [FsNode.file "g.md" goodFile]).1 ++
        (fetch_contents_list [] []).1 ∧
    ({ message := "Unable to decode source " ++ "b.md" ++ ": skipping",
       severity := "warning" } : LogEntry) ∈
      (fetch_contents [] (FsNode.file "b.md" badEncodingFile)).2 := by
  refine ⟨?_, ?_, ?_⟩
  · exact (c7_unreadable_file_is_skipped "a.bin" binFile [] (Or.inl rfl)).1
  · exact (c7_unreadable_file_is_skipped "a.bin" binFile [] (Or.inl rfl)).2.2
      [FsNode.file "g.md" goodFile] []
  · exact (c7_unreadable_file_is_skipped "b.md" badEncodingFile [] (Or.inr rfl)).2.1 rfl rfl

/-- Two permuted lists of nodes that are both sorted by name are equal when
the names are pairwise distinct (as directory listings are). -/
theorem sorted_perm_nodup_eq :
    ∀ l1 l2 : List FsNode, l1.Perm l2 → l1.Sorted nodeLe → l2.Sorted nodeLe →
      (l1.map nodeName).Nodup → l1 = l2 := by
  intro l1
  induction l1 with
  | nil =>
    intro l2 hp _ _ _
    exact (hp.symm.eq_nil).symm
  | cons a t ih =>
    intro l2 hp hs1 hs2 hnd
    cases l2 with
    | nil => exact absurd hp.eq_nil (by simp)
    | cons b t2 =>
      by_cases hab : a = b
      · subst hab
        have hp' := hp.cons_inv
        have := ih t2 hp' hs1.of_cons hs2.of_cons (by
          simp only [List.map_cons, List.nodup_cons] at hnd
          exact hnd.2)
        rw [this]
      · exfalso
        have hbmem : b ∈ a :: t := hp.mem_iff.mpr (List.mem_cons_self b t2)
        have hamem : a ∈ b :: t2 := hp.mem_iff.mp (List.mem_cons_self a t)
        have hbt : b ∈ t := by
          cases hbmem with
          | head => exact absurd rfl (fun h => hab h.symm)
          | tail _ h => exact h
        have hat2 : a ∈ t2 := by
          cases hamem with
          | head => exact absurd rfl hab
          | tail _ h => exact h
        have h1 : nodeLe a b := List.rel_of_sorted_cons hs1 b hbt
        have h2 : nodeLe b a := List.rel_of_sorted_cons hs2 a hat2
        have hname : nodeName a = nodeName b := le_antisymm h1 h2
        have hmap : nodeName b ∈ t.map nodeName := List.mem_map_of_mem nodeName hbt
        simp only [List.map_cons, List.nodup_cons] at hnd
        exact hnd.1 (hname ▸ hmap)

/-- C8: walking a directory visits its children in lexicographic filename
order — the traversal order is the name-sorted arrangement of the entries
(which is `Sorted nodeLe`), so for children with distinct names the entire
result (records and logs) is independent of the order in which the
filesystem lists the entries. -/
theorem c8_directory_order (macros : List MacroUnit) (name : String)
    (l l2 : List FsNode) (hperm : l.Perm l2) (hnd : (l.map nodeName).Nodup) :
    fetch_contents macros (FsNode.dir name l) = fetch_contents macros (FsNode.dir name l2) ∧
    (l.insertionSort nodeLe).Sorted nodeLe := by
  have hsortnd : ((l.insertionSort nodeLe).map nodeName).Nodup := by
    have hp := (List.perm_insertionSort nodeLe l).map nodeName
    exact hp.nodup_iff.mpr hnd
  have hsort : l.insertionSort nodeLe = l2.insertionSort nodeLe := by
    apply sorted_perm_nodup_eq
    · exact (List.perm_insertionSort nodeLe l).trans
        (hperm.trans (List.perm_insertionSort nodeLe l2).symm)
    · exact List.sorted_insertionSort nodeLe l
    · exact List.sorted_insertionSort nodeLe l2
    · exact hsortnd
  refine ⟨?_, List.sorted_insertionSort nodeLe l⟩
  rw [fetch_contents, fetch_contents, hsort]

/-- C8 witness: a two-file directory listed in the two possible native
orders produces identical output. -/
theorem c8_directory_order_witness :
    fetch_contents [] (FsNode.dir "src"
        [FsNode.file "b.md" goodFile, FsNode.file "a.md" goodFile]) =
      fetch_contents [] (FsNode.dir "src"
        [FsNode.file "a.md" goodFile, FsNode.file "b.md" goodFile]) ∧
    (([FsNode.file "b.md" goodFile, FsNode.file "a.md" goodFile] : List FsNode).insertionSort
        nodeLe).Sorted nodeLe :=
  c8_directory_order [] "src"
    [FsNode.file "b.md" goodFile, FsNode.file "a.md" goodFile]
    [FsNode.file "a.md" goodFile, FsNode.file "b.md" goodFile]
    (List.Perm.swap (FsNode.file "a.md" goodFile) (FsNode.file "b.md" goodFile) [])
    (by decide)

/-- When every registered macro returns its input unchanged with no
classes, the macro stage is the identity with an empty log. -/
theorem process_macros_id (macros : List MacroUnit)
    (hid : ∀ m ∈ macros, ∀ c s, m.run c s = Except.ok (c, [])) (content : String)
    (source : Option String) :
    process_macros macros content source =
      { content := content, classes := [], log := [] } := by
  induction macros with
  | nil => rfl
  | cons m rest ih =>
    simp [process_macros, hid m (by simp) content source,
      ih (fun m2 hm2 => hid m2 (by simp [hm2]))]

/-- C9, counterexample: the parsed document `"<h1>T</h1>body"` contains no
boundary marker, so the split yields exactly one fragment (the document
itself), but the resulting slide record's `content` is only `"body"` — the
text trailing the heading — not the whole parsed document stripped of
whitespace, contradicting the claim. -/
theorem c9_content_not_whole_document :
    hrSplit "<h1>T</h1>body" = ["<h1>T</h1>body"] ∧
    (fetch_contents [] (FsNode.file "a.md"
        { hasParser := true, format := "markdown", decodes := true,
          parsed := "<h1>T</h1>body" })).1 =
      [some { header := some "<h1>T</h1>", title := some "T", level := some 1,
              content := some "body", classes := [], source := some "a.md",
              number := none }] ∧
    pyStrip "<h1>T</h1>body" = "<h1>T</h1>body" ∧
    (some "body" : Option String) ≠ some "<h1>T</h1>body" := by
  have hsplit : hrSplit "<h1>T</h1>body" = ["<h1>T</h1>body"] :=
    hrSplit_of_no_match _ (by decide)
  refine ⟨hsplit, ?_, by decide, by decide⟩
  simp only [fetch_contents]
  rw [hsplit]
  decide

/-- C9 (amended): a parsed document with no boundary-marker match splits
into exactly one fragment, the whole document; and when that fragment
additionally matches no heading, strips to a non-empty string and every
registered macro is the identity, the single resulting slide record's
`content` is the whole parsed document stripped of whitespace.  (When the
fragment contains a heading, `content` is only the text after it, and a
whitespace-only document yields an absent record instead.) -/
theorem c9_no_boundary_single_fragment (doc name fmt : String) (macros : List MacroUnit)
    (hnb : containsHr doc.data = false)
    (hid : ∀ m ∈ macros, ∀ c s, m.run c s = Except.ok (c, []))
    (hsh : searchHeading doc.data = none) (hne : pyStrip doc ≠ "") :
    hrSplit doc = [doc] ∧
    (fetch_contents macros (FsNode.file name
        { hasParser := true, format := fmt, decodes := true, parsed := doc })).1 =
      [some { header := none, title := none, level := none,
              content := some (pyStrip doc), classes := [], source := some name,
              number := none }] := by
  have hsplit := hrSplit_of_no_match doc hnb
  refine ⟨hsplit, ?_⟩
  simp only [fetch_contents]
  rw [hsplit]
  simp only [List.map_cons, List.map_nil]
  unfold get_slide_vars
  rw [hsh]
  simp [process_macros_id macros hid, hne]

/-- C9 witness: the document `"hello"` has no boundary marker and no
heading; it becomes one record whose content is the stripped document. -/
theorem c9_no_boundary_single_fragment_witness :
    hrSplit "hello" = ["hello"] ∧
    (fetch_contents [] (FsNode.file "a.md"
        { hasParser := true, format := "markdown", decodes := true,
          parsed := "hello" })).1 =
      [some { header := none, title := none, level := none,
              content := some (pyStrip "hello"), classes := [], source := some "a.md",
              number := none }] :=
  c9_no_boundary_single_fragment "hello" "a.md" "markdown" []
    (by decide) (by simp) (by decide) (by decide)

/-!
## Numbering, TOC and template vars (generator.py 148-171, 321-341)
-/

/-- One flat entry appended by `Generator.add_toc_entry`
(`{'title': ..., 'number': ..., 'level': ...}`). -/
structure TocEntry where
  title : Option String
  number : Nat
  level : Nat
  deriving DecidableEq, Repr

/-- One nested entry of the tree built by `Generator.get_toc`: a flat
entry plus its `sub` list. -/
structure TocNode where
  title : Option String
  number : Nat
  level : Nat
  sub : List TocNode

/-- Appending an entry through the stack of `get_toc` (generator.py
154-166).  A loop invariant of the Python code: the mutable lists on the
stack are exactly the rightmost spine of the tree under construction —
`stack[0]` is `toc` and `stack[k+1]` is the `sub` list of the last element
of `stack[k]` (pushes read `stack[-1][-1]['sub']`, and appends happen only
at the top, so lower spine positions never change while covered).  After
the two while loops the stack depth equals the entry's level, so
processing an entry of level `d+1` appends it at spine depth `d`.
`appendAt e d l` performs that append, descending `d` times into the `sub`
of the last element; `none` models the `IndexError` Python raises in the
push loop when `stack[-1][-1]` is evaluated on an empty top list. -/
def appendAt (e : TocNode) : Nat → List TocNode → Option (List TocNode)
  | 0, l => some (l ++ [e])
  | d + 1, l =>
    match l.getLast? with
    | none => none
    | some last =>
      match appendAt e d last.sub with
      | none => none
      | some sub2 => some (l.dropLast ++ [{ last with sub := sub2 }])

/-- The loop of `Generator.get_toc` over the flat entries.  An entry of
level 0 would pop `toc` itself off the stack and fail on the following
`stack[-1]`; entries of level `d+1` are appended at spine depth `d` (see
`appendAt`). -/
def get_toc_aux : List TocEntry → List TocNode → Option (List TocNode)
  | [], toc => some toc
  | e :: rest, toc =>
    if e.level = 0 then none
    else
      match appendAt { title := e.title, number := e.number, level := e.level, sub := [] }
          (e.level - 1) toc with
      | none => none
      | some toc2 => get_toc_aux rest toc2

/-- Shallow embedding of `Generator.get_toc`: build the nested outline
from the flat entry log; `none` models the `IndexError` raised on level
sequences that skip deeper by more than one step. -/
def get_toc (entries : List TocEntry) : Option (List TocNode) :=
  get_toc_aux entries []

/-- The numbering loop of `Generator.get_template_vars` (generator.py
329-336): `None` records are skipped (`if not slide_vars: continue`),
each present record gets `number := num_slides` after the increment, and
records whose truthy `level` is at most `TOC_MAX_LEVEL = 2` append a flat
TOC entry (`add_toc_entry`); `tocStep` is that conditional append, and
`numberPass` returns (updated slides, final `num_slides`, flat TOC log). -/
def tocStep (sv : SlideRecord) (n1 : Nat) (toc : List TocEntry) : List TocEntry :=
  match sv.level with
  | some lv =>
    if lv ≠ 0 && lv ≤ 2 then
      toc ++ [{ title := sv.title, number := n1, level := lv }]
    else toc
  | none => toc

def numberPass : List (Option SlideRecord) → Nat → List TocEntry →
    List (Option SlideRecord) × Nat × List TocEntry
  | [], n, toc => ([], n, toc)
  | none :: rest, n, toc =>
    let r := numberPass rest n toc
    (none :: r.1, r.2)
  | some sv :: rest, n, toc =>
    let n1 := n + 1
    let r := numberPass rest n1 (tocStep sv n1 toc)
    (some { sv with number := some n1 } :: r.1, r.2)

/-- The template-variable bundle of `Generator.get_template_vars`
restricted to the fields computed by the core (generator.py 321-341):
`head_title`, `num_slides` (stringified by the caller), the numbered
slide list and the TOC tree (`none` when `get_toc` raises).  The
`css`/`js`/`embed`/`user_css`/`user_js` entries of the returned dict are
asset I/O taken from elsewhere. -/
structure TemplateVars where
  head_title : Option String
  num_slides : Nat
  slides : List (Option SlideRecord)
  toc : Option (List TocNode)

/-- Shallow embedding of `Generator.get_template_vars`: `head_title` is
`slides[0]['title']`, with the `IndexError` of `slides[0]` on an empty
list and the `TypeError` of `None['title']` both caught and replaced by
the placeholder (a present first record with an absent title yields an
absent head title, not the placeholder); then the numbering pass runs with
the instance counters `num_slides = 0` and `__toc = []` of a fresh
generator. -/
def get_template_vars (slides : List (Option SlideRecord)) : TemplateVars :=
  let head_title : Option String :=
    match slides with
    | [] => some "Untitled Presentation"
    | none :: _ => some "Untitled Presentation"
    | some r :: _ => r.title
  let r := numberPass slides 0 []
  { head_title := head_title, num_slides := r.2.1, slides := r.1, toc := get_toc r.2.2 }

/-- Auxiliary count identity: present records are the length minus the
absent ones. -/
theorem countP_isSome_eq (l : List (Option SlideRecord)) :
    l.countP (fun o => o.isSome) = l.length - l.countP (fun o => o.isNone) := by
  induction l with
  | nil => rfl
  | cons o t ih =>
    have hle : t.countP (fun o => o.isNone) ≤ t.length := List.countP_le_length _
    cases o <;> simp [List.countP_cons, ih] <;> omega

/-- The numbering loop, in full generality over the starting counter and
TOC log: the output list has the same length, agrees with the input
positionally up to the `number` field, and the numbers of the present
records, read in order, are the consecutive integers starting after the
counter. -/
theorem numberPass_spec (slides : List (Option SlideRecord)) (n : Nat) (toc : List TocEntry) :
    (numberPass slides n toc).1.length = slides.length ∧
    (∀ i, ((numberPass slides n toc).1.getD i none).map (fun r => { r with number := none }) =
      (slides.getD i none).map (fun r => { r with number := none })) ∧
    ((numberPass slides n toc).1.filterMap id).map SlideRecord.number =
      (List.range (slides.countP (fun o => o.isSome))).map (fun j => some (n + j + 1)) := by
  induction slides generalizing n toc with
  | nil => exact ⟨rfl, fun i => rfl, rfl⟩
  | cons o rest ih =>
    cases o with
    | none =>
      obtain ⟨ih1, ih2, ih3⟩ := ih n toc
      refine ⟨by simp [numberPass, ih1], fun i => ?_, ?_⟩
      · cases i with
        | zero => rfl
        | succ k => simpa [numberPass] using ih2 k
      · simpa [numberPass, List.countP_cons] using ih3
    | some sv =>
      obtain ⟨ih1, ih2, ih3⟩ := ih (n + 1) (tocStep sv (n + 1) toc)
      refine ⟨by simp [numberPass, ih1], fun i => ?_, ?_⟩
      · cases i with
        | zero => rfl
        | succ k => simpa [numberPass] using ih2 k
      · have hcount : (some sv :: rest).countP (fun o : Option SlideRecord => o.isSome) =
            rest.countP (fun o => o.isSome) + 1 := by
          simp [List.countP_cons]
        rw [hcount, List.range_succ_eq_map]
        simp only [numberPass, List.filterMap_cons, id_eq, List.map_cons, List.map_map]
        rw [ih3]
        refine congrArg (fun t => some (n + 1) :: t) ?_
        apply List.map_congr_left
        intro j _
        simp only [Function.comp]
        refine congrArg some ?_
        omega

/-- C1: the numbering pass of `get_template_vars` keeps the slide list's
length and positional records (changing only their `number` field), and
assigns to exactly the `N - K` present records (where `K` counts the
absent ones) the numbers `1, 2, ..., N - K`, 1-based, gapless, strictly
increasing, in the sequence's original order. -/
theorem c1_numbering_gapless (slides : List (Option SlideRecord)) :
    (get_template_vars slides).slides.length = slides.length ∧
    (∀ i, ((get_template_vars slides).slides.getD i none).map (fun r => { r with number := none }) =
      (slides.getD i none).map (fun r => { r with number := none })) ∧
    ((get_template_vars slides).slides.filterMap id).map SlideRecord.number =
      (List.range (slides.length - slides.countP (fun o => o.isNone))).map
        (fun j => some (j + 1)) := by
  obtain ⟨h1, h2, h3⟩ := numberPass_spec slides 0 []
  refine ⟨h1, h2, ?_⟩
  have : (get_template_vars slides).slides = (numberPass slides 0 []).1 := rfl
  rw [this, h3, countP_isSome_eq]
  apply List.map_congr_left
  intro j _
  refine congrArg some ?_
  omega

/-- The flat TOC entries with levels `[1, 2, 2, 1, 3]` of claim C3. -/
def c3Entries : List TocEntry :=
  [{ title := some "A", number := 1, level := 1 },
   { title := some "B", number := 2, level := 2 },
   { title := some "C", number := 3, level := 2 },
   { title := some "D", number := 4, level := 1 },
   { title := some "E", number := 5, level := 3 }]

/-- C3, counterexample: on the flat entry sequence with levels
`[1, 2, 2, 1, 3]`, `get_toc` does not return a tree at all — the claimed
two-roots-with-a-nested-grandchild result does not exist, because the push
loop for the level-3 entry evaluates `stack[-1][-1]` on the empty `sub`
list of the just-appended second level-1 root, raising `IndexError`. -/
theorem c3_get_toc_no_tree : ¬ ∃ t, get_toc c3Entries = some t := by
  intro h
  obtain ⟨t, ht⟩ := h
  have hnone : get_toc c3Entries = none := rfl
  rw [hnone] at ht
  cases ht

/-- C3 (amended): the documented pop/push stack algorithm handles the
first four entries (levels `[1, 2, 2, 1]`) exactly as described — two
roots, the first with the two level-2 children — but the final level-3
entry makes `get_toc` fail with an index error (the push loop indexes the
last element of the second root's empty `sub` list), so no tree is
returned for the full sequence. -/
theorem c3_get_toc_index_error :
    get_toc (c3Entries.take 4) =
      some [{ title := some "A", number := 1, level := 1,
              sub := [{ title := some "B", number := 2, level := 2, sub := [] },
                      { title := some "C", number := 3, level := 2, sub := [] }] },
            { title := some "D", number := 4, level := 1, sub := [] }] ∧
    get_toc c3Entries = none :=
  ⟨rfl, rfl⟩

/-- A concrete record with a title, as produced for a fragment with a
heading. -/
def titledRecord : SlideRecord :=
  { header := some "<h1>T</h1>", title := some "T", level := some 1,
    content := some "body", classes := [], source := none, number := none }

/-- A concrete record without a title, as produced for a heading-less
fragment. -/
def untitledRecord : SlideRecord :=
  { header := none, title := none, level := none,
    content := some "body", classes := [], source := none, number := none }

/-- C5, counterexample: (i) when the slide list starts with an absent
record followed by a present record titled `"T"`, `head_title` is the
placeholder — not the title of the first *present* record as the claim
states; (ii) when the first record is present but has no title,
`head_title` is absent — not the placeholder the claim requires for a
first record with no title. -/
theorem c5_head_title_counterexample :
    (get_template_vars [none, some titledRecord]).head_title = some "Untitled Presentation" ∧
    (some "Untitled Presentation" : Option String) ≠ titledRecord.title ∧
    (get_template_vars [some untitledRecord]).head_title = none ∧
    (none : Option String) ≠ some "Untitled Presentation" := by
  exact ⟨rfl, by decide, rfl, by decide⟩

/-- C5 (amended): `head_title` is determined by the *first element* of the
slide list, not the first present record: it is the placeholder
`"Untitled Presentation"` exactly when the list is empty (`IndexError`)
or its first element is absent (`TypeError`), and otherwise it is the
first record's `title` field as is — absent when that record has no
title. -/
theorem c5_head_title (slides : List (Option SlideRecord)) :
    ((slides = [] ∨ slides.head? = some none) →
      (get_template_vars slides).head_title = some "Untitled Presentation") ∧
    (∀ r, slides.head? = some (some r) →
      (get_template_vars slides).head_title = r.title) := by
  cases slides with
  | nil => exact ⟨fun _ => rfl, fun r hr => by simp at hr⟩
  | cons a t =>
    cases a with
    | none => exact ⟨fun _ => rfl, fun r hr => by simp at hr⟩
    | some v =>
      refine ⟨fun h => ?_, fun r hr => ?_⟩
      · rcases h with h | h
        · exact absurd h (by simp)
        · exact absurd h (by simp)
      · have hv : v = r := by simpa using hr
        subst hv
        rfl

/-- C5 witness: the amended theorem applied at a list starting with an
absent record, and at a list starting with a titled record. -/
theorem c5_head_title_witness :
    (get_template_vars [none, some titledRecord]).head_title =
      some "Untitled Presentation" ∧
    (get_template_vars [some titledRecord, none]).head_title = titledRecord.title :=
  ⟨(c5_head_title [none, some titledRecord]).1 (Or.inr rfl),
   (c5_head_title [some titledRecord, none]).2 titledRecord rfl⟩

/-!
## Constructor, logger and shared user assets
(`Generator.__init__`, `log`, `add_user_css`, `add_user_js`;
generator.py 51-52, 54-146, 343-349)
-/

/-- Python `str.endswith`, on the character lists. -/
def pyEndsWith (s suffix : String) : Bool :=
  List.isPrefixOf suffix.data.reverse s.data.reverse

/-- The exceptions raised by the constructor and `log`. -/
inductive PyErr where
  | ioError (msg : String)
  | valueError (msg : String)
  deriving DecidableEq, Repr

/-- The two properties of the `logger` kwarg that `Generator.log` inspects:
Python truthiness and `callable(...)`.  `None` is `⟨false, false⟩`; a
lambda is `⟨true, true⟩`; a non-empty non-callable value is
`⟨true, false⟩`; a falsy non-callable value such as `0` is
`⟨false, false⟩`. -/
structure LoggerV where
  truthy : Bool
  isCallable : Bool
  deriving DecidableEq, Repr

/-- Shallow embedding of `Generator.log` (generator.py 343-349): a truthy
non-callable logger raises `ValueError` *before* the verbose test; the
message/severity pair reaches the logger only when both `verbose` and the
logger are truthy. -/
def pyLog (logger : LoggerV) (verbose : Bool) (message : String) (type : String) :
    Except PyErr (Option LogEntry) :=
  if logger.truthy && !logger.isCallable then
    Except.error (PyErr.valueError "Invalid logger set, must be a callable")
  else if verbose && logger.truthy then
    Except.ok (some { message := message, severity := type })
  else Except.ok none

/-- One element of the class-level `user_css` / `user_js` lists:
`{'path_url': ..., 'contents': ...}`. -/
structure AssetEntry where
  path_url : String
  contents : String
  deriving DecidableEq, Repr

/-- The comparison performed by `css_path in self.user_css`: the stored
elements are dicts while `css_path` is a string, and in Python a `str`
never equals a `dict`, so the membership test is constantly false. -/
def strEqAssetDict (_ : String) (_ : AssetEntry) : Bool := false

/-- Shallow embedding of `Generator.add_user_css` / `add_user_js`
(generator.py 124-146), parameterized by the asset kind appearing in the
error message, `utils.get_abs_path_url` and the filesystem read (`none`
models a missing file, which raises `IOError` after the truthy and
membership guards).  The shared class-level list is threaded explicitly:
Python mutates the single class attribute in place. -/
def addUserAssets (kind : String) (absUrl : String → String)
    (readF : String → Option String) :
    List String → List AssetEntry → Except PyErr (List AssetEntry)
  | [], shared => Except.ok shared
  | p :: rest, shared =>
    if p ≠ "" && !(shared.any (fun e => strEqAssetDict p e)) then
      match readF p with
      | none => Except.error (PyErr.ioError (p ++ " user " ++ kind ++ " file not found"))
      | some contents =>
        addUserAssets kind absUrl readF rest
          (shared ++ [{ path_url := absUrl p, contents := contents }])
    else addUserAssets kind absUrl readF rest shared

/-- The class-level mutable state shared by all `Generator` instances
(generator.py 51-52): the `user_css` and `user_js` class attributes. -/
structure ClassState where
  user_css : List AssetEntry
  user_js : List AssetEntry
  deriving DecidableEq, Repr

/-- The normalized dict returned by `parse_config` (generator.py 351-377);
ConfigParser internals are external I/O, so the parse result is a
parameter. -/
structure CfgData where
  source : List String
  theme : String
  destination : String
  embed : Bool
  css : List String
  js : List String

/-- Outcomes of the filesystem checks `__init__` performs, plus the helper
functions used by the asset reads. -/
structure InitEnv where
  sourceExists : Bool
  destExistsNotFile : Bool
  themeFound : Bool
  templateFound : Bool
  absUrl : String → String
  cssFile : String → Option String
  jsFile : String → Option String

/-- The configuration fields of a constructed generator that the claims
inspect. -/
structure GenVars where
  source : List String
  theme : String
  destination_file : String
  file_type : String
  embed : Bool
  verbose : Bool
  logger : LoggerV

/-- Shallow embedding of `Generator.__init__` (generator.py 54-122) for the
kwargs the claims exercise (`logger`, `verbose`; `debug`, `direct`,
`embed`, `encoding` and `extensions` keep their defaults, so
`kwargs.get('direct', 'presentation.html')` yields the default destination
and `direct` is false).  The statement order follows the source: the field
assignments and `register_macro` on the default macro classes cannot
raise; then the source existence check; then, for `.cfg` sources only,
`parse_config` — whose first statement logs `Config ...` and is therefore
the only place a truthy non-callable logger can raise during
construction — followed by the config source check and the
`add_user_css`/`add_user_js` calls on the shared class state; then the
destination and theme/template checks.  Note that the `logger` value
itself is stored without any inspection. -/
def initSourceStage (env : InitEnv) (cls : ClassState) (source : String) (logger : LoggerV)
    (verbose : Bool) (cfg : CfgData) :
    Except PyErr (List String × String × String × Bool × ClassState) :=
  if pyEndsWith source ".cfg" then
    (pyLog logger verbose ("Config   " ++ source) "notice").bind (fun _ =>
      if cfg.source.isEmpty then
        Except.error (PyErr.ioError "unable to fetch a valid source from config")
      else
        (addUserAssets "css" env.absUrl env.cssFile cfg.css cls.user_css).bind (fun css2 =>
          (addUserAssets "js" env.absUrl env.jsFile cfg.js cls.user_js).bind (fun js2 =>
            Except.ok (cfg.source, cfg.theme, cfg.destination, cfg.embed,
              ({ user_css := css2, user_js := js2 } : ClassState)))))
  else
    Except.ok ([source], "default", "presentation.html", false, cls)

/-- The destination, theme and template checks closing `__init__`
(generator.py 106-122), applied to the source/theme/destination/embed
values and shared class state produced by the source stage. -/
def initRest (env : InitEnv) (logger : LoggerV) (verbose : Bool) (src2 : List String)
    (theme2 dest2 : String) (embed2 : Bool) (cls2 : ClassState) :
    Except PyErr (GenVars × ClassState) :=
    if env.destExistsNotFile then
      Except.error (PyErr.ioError ("Destination " ++ dest2 ++ " exists and is not a file"))
    else
      match
        (if pyEndsWith dest2 ".html" then Except.ok ("html", embed2)
         else if pyEndsWith dest2 ".pdf" then Except.ok ("pdf", true)
         else Except.error (PyErr.ioError ("This program can only write html or pdf " ++
           "files. Please use one of these file extensions in the destination")) :
          Except PyErr (String × Bool))
      with
      | Except.error e => Except.error e
      | Except.ok (ft, embed3) =>
        if !env.themeFound then
          Except.error (PyErr.ioError ("Theme " ++ theme2 ++ " not found or invalid"))
        else if !env.templateFound then
          Except.error (PyErr.ioError "Cannot find base.html in default theme")
        else
          Except.ok ({ source := src2, theme := theme2, destination_file := dest2,
                       file_type := ft, embed := embed3, verbose := verbose,
                       logger := logger }, cls2)

/-- `__init__` itself: the source existence check, then the source stage,
then the closing checks. -/
def generatorInit (env : InitEnv) (cls : ClassState) (source : String) (logger : LoggerV)
    (verbose : Bool) (cfg : CfgData) : Except PyErr (GenVars × ClassState) :=
  if source = "" || !env.sourceExists then
    Except.error (PyErr.ioError ("Source file/directory " ++ source ++ " does not exist"))
  else
    match initSourceStage env cls source logger verbose cfg with
    | Except.error e => Except.error e
    | Except.ok (src2, theme2, dest2, embed2, cls2) =>
      initRest env logger verbose src2 theme2 dest2 embed2 cls2

/-- An environment in which every filesystem check succeeds. -/
def goodEnv : InitEnv :=
  { sourceExists := true, destExistsNotFile := false, themeFound := true,
    templateFound := true, absUrl := fun s => s, cssFile := fun _ => none,
    jsFile := fun _ => none }

/-- A truthy, non-callable logger value (e.g. a string passed as
`logger`). -/
def nonCallableLogger : LoggerV := { truthy := true, isCallable := false }

/-- A config parse result with no source entries. -/
def emptyCfg : CfgData :=
  { source := [], theme := "default", destination := "presentation.html",
    embed := false, css := [], js := [] }

/-- C6, counterexample: constructing a generator from an ordinary (non
`.cfg`) markdown source with a truthy *non-callable* logger succeeds —
no configuration error is raised during `__init__`, contradicting the
claim that it is raised at construction time. -/
theorem c6_init_accepts_non_callable_logger :
    generatorInit goodEnv { user_css := [], user_js := [] } "slides.md"
        nonCallableLogger false emptyCfg =
      Except.ok ({ source := ["slides.md"], theme := "default",
                   destination_file := "presentation.html", file_type := "html",
                   embed := false, verbose := false, logger := nonCallableLogger },
                 { user_css := [], user_js := [] }) ∧
    nonCallableLogger.truthy = true ∧ nonCallableLogger.isCallable = false := by
  exact ⟨rfl, rfl, rfl⟩

/-- C6 (amended): `__init__` stores the logger without inspecting it; for
a non-`.cfg` source (that exists, with valid destination and theme)
construction succeeds whatever the logger is, and the
`ValueError("Invalid logger set, must be a callable")` is raised at the
*first `log()` call* made with a truthy non-callable logger — which
happens during construction only for `.cfg` sources, because
`parse_config` logs its `Config` line. -/
theorem c6_logger_checked_at_first_log (env : InitEnv) (cls : ClassState) (source : String)
    (logger : LoggerV) (verbose : Bool) (cfg : CfgData)
    (hl : logger.truthy = true) (hnc : logger.isCallable = false)
    (hsrc : source ≠ "") (hex : env.sourceExists = true)
    (hcfg : pyEndsWith source ".cfg" = false)
    (hdest : env.destExistsNotFile = false) (hth : env.themeFound = true)
    (htp : env.templateFound = true) :
    generatorInit env cls source logger verbose cfg =
      Except.ok ({ source := [source], theme := "default",
                   destination_file := "presentation.html", file_type := "html",
                   embed := false, verbose := verbose, logger := logger }, cls) ∧
    (∀ m t, pyLog logger verbose m t =
      Except.error (PyErr.valueError "Invalid logger set, must be a callable")) ∧
    (∀ src2 : String, pyEndsWith src2 ".cfg" = true → src2 ≠ "" →
      generatorInit env cls src2 logger verbose cfg =
        Except.error (PyErr.valueError "Invalid logger set, must be a callable")) := by
  refine ⟨?_, ?_, ?_⟩
  · have hhtml : pyEndsWith "presentation.html" ".html" = true := by decide
    simp [generatorInit, initSourceStage, initRest, hsrc, hex, hcfg, hdest, hth, htp, hhtml]
  · intro m t
    simp [pyLog, hl, hnc]
  · intro src2 hcfg2 hsrc2
    simp [generatorInit, initSourceStage, hsrc2, hex, hcfg2, pyLog, hl, hnc, Except.bind]

/-- C6 witness: the amended theorem at a concrete markdown source, a
concrete log call, and a concrete `.cfg` source. -/
theorem c6_logger_checked_at_first_log_witness :
    generatorInit goodEnv { user_css := [], user_js := [] } "slides.md"
        nonCallableLogger true emptyCfg =
      Except.ok ({ source := ["slides.md"], theme := "default",
                   destination_file := "presentation.html", file_type := "html",
                   embed := false, verbose := true, logger := nonCallableLogger },
                 { user_css := [], user_js := [] }) ∧
    pyLog nonCallableLogger true "Entering src" "notice" =
      Except.error (PyErr.valueError "Invalid logger set, must be a callable") ∧
    generatorInit goodEnv { user_css := [], user_js := [] } "p.cfg"
        nonCallableLogger true emptyCfg =
      Except.error (PyErr.valueError "Invalid logger set, must be a callable") := by
  have h := c6_logger_checked_at_first_log goodEnv { user_css := [], user_js := [] }
    "slides.md" nonCallableLogger true emptyCfg rfl rfl (by decide) rfl (by decide)
    rfl rfl rfl
  exact ⟨h.1, h.2.1 "Entering src" "notice", h.2.2 "p.cfg" (by decide) (by decide)⟩


/-- `add_user_css`/`add_user_js` only ever append to the shared list. -/
theorem addUserAssets_extends (kind : String) (absUrl : String → String)
    (readF : String → Option String) :
    ∀ (paths : List String) (shared res : List AssetEntry),
      addUserAssets kind absUrl readF paths shared = Except.ok res →
      ∃ t, res = shared ++ t := by
  intro paths
  induction paths with
  | nil =>
    intro shared res h
    refine ⟨[], ?_⟩
    have : shared = res := by
      have h2 := h
      rw [addUserAssets] at h2
      cases h2
      rfl
    simp [this]
  | cons p rest ih =>
    intro shared res h
    rw [addUserAssets] at h
    split at h
    · cases hrd : readF p with
      | none => rw [hrd] at h; cases h
      | some contents =>
        rw [hrd] at h
        obtain ⟨t, ht⟩ := ih _ res h
        exact ⟨{ path_url := absUrl p, contents := contents } :: t, by simp [ht]⟩
    · exact ih shared res h

/-- Inversion for sequenced fallible steps. -/
theorem except_bind_eq_ok {e a b : Type} (x : Except e a) (f : a → Except e b) (y : b) :
    x.bind f = Except.ok y ↔ ∃ v, x = Except.ok v ∧ f v = Except.ok y := by
  cases x with
  | error err => simp [Except.bind]
  | ok v => simp [Except.bind]

/-- The source stage returns the shared class state unchanged for plain
sources and only ever appends to it for `.cfg` sources. -/
theorem initSourceStage_state (env : InitEnv) (cls : ClassState) (source : String)
    (logger : LoggerV) (verbose : Bool) (cfg : CfgData)
    (tup : List String × String × String × Bool × ClassState)
    (h : initSourceStage env cls source logger verbose cfg = Except.ok tup) :
    (pyEndsWith source ".cfg" = false → tup.2.2.2.2 = cls) ∧
    (∃ t, tup.2.2.2.2.user_css = cls.user_css ++ t) ∧
    (∃ t, tup.2.2.2.2.user_js = cls.user_js ++ t) := by
  unfold initSourceStage at h
  split at h
  · rename_i hc
    rw [except_bind_eq_ok] at h
    obtain ⟨u, hlog, h⟩ := h
    split at h
    · cases h
    · rw [except_bind_eq_ok] at h
      obtain ⟨css2, hcss, h⟩ := h
      rw [except_bind_eq_ok] at h
      obtain ⟨js2, hjs, h⟩ := h
      cases h
      refine ⟨fun hf => absurd hc (by simp [hf]), ?_, ?_⟩
      · exact addUserAssets_extends "css" env.absUrl env.cssFile cfg.css
          cls.user_css css2 hcss
      · exact addUserAssets_extends "js" env.absUrl env.jsFile cfg.js
          cls.user_js js2 hjs
  · cases h
    exact ⟨fun _ => rfl, ⟨[], by simp⟩, ⟨[], by simp⟩⟩

/-- The closing checks return exactly the class state handed to them. -/
theorem initRest_state (env : InitEnv) (logger : LoggerV) (verbose : Bool)
    (src2 : List String) (theme2 dest2 : String) (embed2 : Bool) (cls3 : ClassState)
    (g : GenVars) (cls2 : ClassState)
    (h : initRest env logger verbose src2 theme2 dest2 embed2 cls3 = Except.ok (g, cls2)) :
    cls2 = cls3 := by
  unfold initRest at h
  split at h
  · cases h
  · split at h
    · cases h
    · split at h
      · cases h
      · split at h
        · cases h
        · cases h
          rfl

/-- A successful construction factors through the source stage, and the
final shared state is the one the source stage produced. -/
theorem generatorInit_state (env : InitEnv) (cls : ClassState) (source : String)
    (logger : LoggerV) (verbose : Bool) (cfg : CfgData) (g : GenVars) (cls2 : ClassState)
    (h : generatorInit env cls source logger verbose cfg = Except.ok (g, cls2)) :
    ∃ tup, initSourceStage env cls source logger verbose cfg = Except.ok tup ∧
      cls2 = tup.2.2.2.2 := by
  unfold generatorInit at h
  split at h
  · cases h
  · split at h
    · cases h
    · rename_i src2 theme2 dest2 embed2 cls3 htup
      exact ⟨(src2, theme2, dest2, embed2, cls3), htup,
        initRest_state env logger verbose src2 theme2 dest2 embed2 cls3 g cls2 h⟩

/-- C10, counterexample: the shared list already holds the entry produced
for `"a.css"`, yet adding `"a.css"` again appends a second copy — the
`css_path in self.user_css` membership test compares the path string
against the stored dicts and never succeeds, so a path already present
*is* added twice, contradicting the claim's final clause. -/
theorem c10_duplicate_path_added_twice :
    addUserAssets "css" (fun s => s) (fun _ => some "body") ["a.css"]
        [{ path_url := "a.css", contents := "body" }] =
      Except.ok [{ path_url := "a.css", contents := "body" },
                 { path_url := "a.css", contents := "body" }] := by
  rfl

/-- C10 (amended): `user_css`/`user_js` are class-level state shared by all
generator instances and threaded through every construction: (i) a
successful construction from a non-config source returns the shared state
untouched (never reset by `__init__`); (ii) every successful construction —
including the `.cfg` path, which runs `add_user_css`/`add_user_js` — only
ever appends to the shared lists, so entries persist across subsequent
constructions and are visible to every instance; (iii) adding a non-empty
readable path appends its entry even when the same path's entry is already
present, because the membership check compares the path string against the
stored dicts and never matches. -/
theorem c10_shared_user_assets :
    (∀ env cls source logger verbose cfg g cls2,
      pyEndsWith source ".cfg" = false →
      generatorInit env cls source logger verbose cfg = Except.ok (g, cls2) →
      cls2 = cls) ∧
    (∀ env cls source logger verbose cfg g cls2,
      generatorInit env cls source logger verbose cfg = Except.ok (g, cls2) →
      (∃ t, cls2.user_css = cls.user_css ++ t) ∧
      (∃ t, cls2.user_js = cls.user_js ++ t)) ∧
    (∀ (kind : String) (absUrl : String → String) (readF : String → Option String)
        (shared : List AssetEntry) (p c : String),
      p ≠ "" → readF p = some c →
      addUserAssets kind absUrl readF [p] shared =
        Except.ok (shared ++ [{ path_url := absUrl p, contents := c }])) := by
  refine ⟨?_, ?_, ?_⟩
  · intro env cls source logger verbose cfg g cls2 hncfg h
    obtain ⟨tup, htup, hcls⟩ := generatorInit_state env cls source logger verbose cfg
      g cls2 h
    rw [hcls]
    exact (initSourceStage_state env cls source logger verbose cfg tup htup).1 hncfg
  · intro env cls source logger verbose cfg g cls2 h
    obtain ⟨tup, htup, hcls⟩ := generatorInit_state env cls source logger verbose cfg
      g cls2 h
    rw [hcls]
    exact ⟨(initSourceStage_state env cls source logger verbose cfg tup htup).2.1,
           (initSourceStage_state env cls source logger verbose cfg tup htup).2.2⟩
  · intro kind absUrl readF shared p c hp hr
    have hany : (shared.any fun e => strEqAssetDict p e) = false := by
      simp [strEqAssetDict]
    simp [addUserAssets, hp, hany, hr]

/-- The entry `add_user_css` builds for `a.css`. -/
def entryA : AssetEntry := { path_url := "a.css", contents := "body" }

/-- A shared class state already holding that entry. -/
def clsA : ClassState := { user_css := [entryA], user_js := [] }

/-- The logger default `None`. -/
def plainLogger : LoggerV := { truthy := false, isCallable := false }

/-- The generator configuration produced for `slides.md` under `goodEnv`. -/
def gvA : GenVars :=
  { source := ["slides.md"], theme := "default",
    destination_file := "presentation.html", file_type := "html", embed := false,
    verbose := false, logger := plainLogger }

/-- C10 witness: the amended theorem applied to a concrete construction
over a pre-populated shared state, and to a concrete duplicate add. -/
theorem c10_shared_user_assets_witness :
    clsA = clsA ∧
    addUserAssets "css" (fun s => s) (fun _ => some "body") ["a.css"] [entryA] =
      Except.ok ([entryA] ++ [{ path_url := "a.css", contents := "body" }]) := by
  constructor
  · exact c10_shared_user_assets.1 goodEnv clsA "slides.md" plainLogger false emptyCfg
      gvA clsA (by decide) rfl
  · exact c10_shared_user_assets.2.2 "css" (fun s => s) (fun _ => some "body") [entryA]
      "a.css" "body" (by decide) rfl
